import Mathlib

/-!
Verification of the iNaturalist dataset-creator pipeline (main.py).

The Python source is shallowly embedded: pure string helpers become Lean
functions on character lists, the module-level mutable globals become an
explicit state record threaded through each function, network and image
decoding are oracles supplied as parameters, and observable actions
(rate-limiter acquisition, network calls, download dispatch, log lines)
are collected in an effect trace.  Python exceptions are modelled with
`Except`.
-/

namespace INatDataset

/-! ## Character-level helpers shared by the embedded string operations -/

/-- ASCII whitespace as matched by the regex class underlying the source's
space handling and by CPython's surrounding-whitespace stripping. -/
def isPySpace (c : Char) : Bool :=
  c == ' ' || c == '\t' || c == '\n' || c == '\r' || c == '\x0b' || c == '\x0c'

def isAsciiLowerCh (c : Char) : Bool :=
  decide ('a' ≤ c) && decide (c ≤ 'z')

def isAsciiUpperCh (c : Char) : Bool :=
  decide ('A' ≤ c) && decide (c ≤ 'Z')

/-- Auxiliary scan for the whitespace-collapsing substitution: the Boolean
records whether the previous character belonged to a whitespace run. -/
def collapseSpacesAux : Bool → List Char → List Char
  | _, [] => []
  | inRun, c :: cs =>
    if isPySpace c then
      if inRun then collapseSpacesAux true cs
      else '_' :: collapseSpacesAux true cs
    else c :: collapseSpacesAux false cs

/-- Embeds the source's first substitution: every maximal run of whitespace
is replaced by a single underscore. -/
def collapseSpaces (l : List Char) : List Char :=
  collapseSpacesAux false l

/-- Embeds the source's second substitution: a non-overlapping scan that
inserts an underscore between a lowercase letter followed by an uppercase
letter, consuming both matched characters. -/
def camelSplit : List Char → List Char
  | [] => []
  | [c] => [c]
  | c1 :: c2 :: cs =>
    if isAsciiLowerCh c1 && isAsciiUpperCh c2 then
      c1 :: '_' :: c2 :: camelSplit cs
    else
      c1 :: camelSplit (c2 :: cs)

/-- Embeds `to_snake_case` from main.py: collapse whitespace to underscores, split
camel/Pascal boundaries, lowercase. -/
def to_snake_case (s : String) : String :=
  String.mk ((camelSplit (collapseSpaces s.data)).map Char.toLower)

/-- Tests whether the second list begins with the characters of the first list. -/
def startsWithL : List Char → List Char → Bool
  | [], _ => true
  | _ :: _, [] => false
  | a :: as, b :: bs => a == b && startsWithL as bs

/-- Python's substring membership test on character lists. -/
def containsSub (needle : List Char) : List Char → Bool
  | [] => startsWithL needle []
  | c :: cs => startsWithL needle (c :: cs) || containsSub needle cs

/-- Single first-occurrence literal substitution, the semantics of the
source's one-count regex substitution on a literal pattern. -/
def replaceFirst (needle repl : List Char) : List Char → List Char
  | [] => []
  | c :: cs =>
    if startsWithL needle (c :: cs) then repl ++ (c :: cs).drop needle.length
    else c :: replaceFirst needle repl cs

/-! ## Rate limiter (`respect_rate_limit`, main.py lines 43-50)

Model time is measured in seconds and advances only when the limiter
sleeps; every other step of the program is treated as instantaneous, which
is the adversarial schedule for window-counting properties. -/

structure RLState where
  request_count : Nat
  now : Nat
deriving DecidableEq, Repr

/-- Embeds `respect_rate_limit` from main.py: once the counter has reached 60 the
caller sleeps a full minute and the counter is reset to zero without being
incremented; otherwise the counter is incremented. -/
def respect_rate_limit (s : RLState) : RLState :=
  if 60 ≤ s.request_count then
    { request_count := 0, now := s.now + 60 }
  else
    { s with request_count := s.request_count + 1 }

/-- Run `n` consecutive acquisitions, returning the final limiter state and
the list of completion times (the model clock at the moment each call
returns). -/
def runAcquires : Nat → RLState → RLState × List Nat
  | 0, s => (s, [])
  | n + 1, s =>
    let s1 := respect_rate_limit s
    let r := runAcquires n s1
    (r.1, s1.now :: r.2)

/-- Number of completion times falling inside the closed window `[a, b]`. -/
def completionsInWindow (ts : List Nat) (a b : Nat) : Nat :=
  (ts.filter (fun t => decide (a ≤ t) && decide (t ≤ b))).length

/-- Number of completion times equal to the instant `T`. -/
def countAt (ts : List Nat) (T : Nat) : Nat :=
  (ts.filter (fun t => decide (t = T))).length

/-! ## Data model of the observation API and the pipeline state -/

/-- The Python exceptions that the embedded fragment can raise. -/
inductive PyError where
  | requestError
  | zeroDivisionError
deriving DecidableEq, Repr

/-- A photo record inside an observation, reduced to the field the source
reads (the square-resolution URL). -/
structure ObsPhoto where
  url : String
deriving DecidableEq, Repr

/-- One observation: the source only inspects its photo list. -/
structure Observation where
  observation_photos : List ObsPhoto
deriving DecidableEq, Repr

/-- The decoded JSON body of an observation query. -/
structure ObsResponse where
  total_results : Nat
  results : List Observation
deriving DecidableEq, Repr

/-- Outcome of issuing the observation GET: either a decoded body or a
raised request exception (connection error, timeout). -/
inductive FetchResult where
  | ok (r : ObsResponse)
  | err
deriving DecidableEq, Repr

/-- A species record as consumed by `process_specy` (`specy['taxon']`). -/
structure Specy where
  name : String
  id : Nat
deriving DecidableEq, Repr

/-- Observable actions of a pipeline run, in program order. -/
inductive Effect where
  | rateLimitAcquire
  | networkCall
  | dispatchDownloads (urls : List String)
  | logLine (s : String)
deriving DecidableEq, Repr

/-- The module-level mutable state of main.py: the rate limiter's counter
(with the model clock), the two progress counters, the disk cache, and the
filesystem.  The filesystem maps a folder path to its regular-file count
when the folder exists.  `total_results` is the module-level global of
that name: the assignments of the same name inside `process_specy` and the
bulk enumerator carry no `global` declaration in the source, so under
Python scoping they bind function-local variables and this field is the
one `report_stats` reads. -/
structure GState where
  rl : RLState
  species_done : Nat
  total_results : Nat
  cache : String → Option ObsResponse
  fs : String → Option Nat

/-- The globals as initialized at module load (main.py lines 17-21). -/
def initState : GState :=
  { rl := { request_count := 0, now := 0 }
  , species_done := 0
  , total_results := 0
  , cache := fun _ => none
  , fs := fun _ => none }

def root_folder : String := "fish_photos"

/-- Embeds `create_species_folder`: it creates the per-species folder when absent
(with zero regular files) and leaves it untouched when present. -/
def create_species_folder (fs : String → Option Nat) (species_name : String) :
    (String → Option Nat) × String :=
  let species_folder := root_folder ++ ("/") ++ species_name
  match fs species_folder with
  | some _ => (fs, species_folder)
  | none => (fun k => if k = species_folder then some 0 else fs k, species_folder)

/-- Embeds `report_stats`: it prints the request counter and the completion
percentage `species_done / total_results * 100`.  Reading the untouched
global `total_results` at zero raises `ZeroDivisionError`. -/
def report_stats (g : GState) : Except PyError Rat :=
  if g.total_results = 0 then Except.error PyError.zeroDivisionError
  else Except.ok ((g.species_done : Rat) / (g.total_results : Rat) * 100)

/-- Embeds `get_observations`: its try/except re-raises any request exception, so
it is the identity on the fetch oracle's outcome. -/
def get_observations (fetch : FetchResult) : Except PyError ObsResponse :=
  match fetch with
  | FetchResult.ok r => Except.ok r
  | FetchResult.err => Except.error PyError.requestError

/-- Embeds `cached_get_observations`: on a cache hit return the stored response
(logging the hit, touching neither the rate limiter nor the network); on a
miss acquire the rate limiter under the lock, issue the query, and store
the response under the folder key — unless the query raises, in which case
the exception propagates with the cache unchanged. -/
def cached_get_observations (fetch : FetchResult) (species_folder : String)
    (g : GState) : Except PyError ObsResponse × GState × List Effect :=
  match g.cache species_folder with
  | some res =>
    (Except.ok res, g, [Effect.logLine (("Cache used for ") ++ species_folder)])
  | none =>
    let g1 : GState := { g with rl := respect_rate_limit g.rl }
    match get_observations fetch with
    | Except.error e =>
      (Except.error e, g1, [Effect.rateLimitAcquire, Effect.networkCall])
    | Except.ok res =>
      (Except.ok res,
       { g1 with cache := fun k => if k = species_folder then some res else g1.cache k },
       [Effect.rateLimitAcquire, Effect.networkCall])

/-- URL extraction (main.py lines 154-159): in result order, take the first
photo URL of each observation that has at least one photo and rewrite the
first occurrence of the resolution token. -/
def extract_photo_urls : List Observation → List String
  | [] => []
  | anObs :: rest =>
    match anObs.observation_photos with
    | [] => extract_photo_urls rest
    | p :: _ =>
      String.mk (replaceFirst (("square").data) (("medium").data) p.url.data)
        :: extract_photo_urls rest

/-- The body of `process_specy` past the resume check (main.py lines
146-173).  `runBatch` is the photo thread-pool oracle describing the
filesystem after the dispatched downloads finish.  Note the download gate
compares the recounted file total against the literal `100` and against
the function-local `total_results`; the final `report_stats` call can
itself raise, after `species_done` has been incremented. -/
def process_specy_body (fetch : FetchResult)
    (runBatch : List String → (String → Option Nat) → (String → Option Nat))
    (g : GState) (common_name species_folder : String) :
    Except PyError Unit × GState × List Effect :=
  let g1 : GState := { g with fs := (create_species_folder g.fs common_name).1 }
  match cached_get_observations fetch species_folder g1 with
  | (Except.error e, g2, eff) => (Except.error e, g2, eff)
  | (Except.ok obs, g2, eff) =>
    let total_results_local := obs.total_results
    let photo_urls := extract_photo_urls obs.results
    let num_images := (g2.fs species_folder).getD 0
    let gated :=
      if num_images < 100 ∧ num_images < total_results_local then
        ({ g2 with fs := runBatch photo_urls g2.fs },
         [Effect.dispatchDownloads photo_urls])
      else (g2, ([] : List Effect))
    let g4 : GState := { gated.1 with species_done := gated.1.species_done + 1 }
    match report_stats g4 with
    | Except.error e =>
      (Except.error e, g4, eff ++ gated.2 ++ [Effect.logLine (("Done specy ") ++ common_name)])
    | Except.ok _ =>
      (Except.ok (), g4,
       eff ++ gated.2 ++ [Effect.logLine (("Done specy ") ++ common_name),
         Effect.logLine ("stats")])

/-- Embeds `process_specy` (main.py lines 130-173): derive the folder key; if the
folder exists with at least 30 regular files, increment `species_done`
under the lock and return immediately; otherwise run the fetch-extract-
download body.  Exceptions raised by the body propagate to the caller:
there is no surrounding try/except in the source. -/
def process_specy (fetch : FetchResult)
    (runBatch : List String → (String → Option Nat) → (String → Option Nat))
    (specy : Specy) (nb_img : Nat) (g : GState) :
    Except PyError Unit × GState × List Effect :=
  let common_name := to_snake_case specy.name
  let species_folder := root_folder ++ ("/") ++ common_name
  match g.fs species_folder with
  | some n =>
    if 30 ≤ n then
      (Except.ok (), { g with species_done := g.species_done + 1 }, [])
    else
      process_specy_body fetch runBatch g common_name species_folder
  | none => process_specy_body fetch runBatch g common_name species_folder

/-- The species-level thread pool of `process_indian_oceanic_fish_species`
(main.py lines 218-220): `executor.map` runs `process_specy` once per
species; each task's exception is stored in its future and — because the
map's results are never consumed — silently discarded, so a raising task
never aborts its siblings.  Sequential composition models one schedule of
the pool. -/
def runSpeciesBatch (fetchFor : Specy → FetchResult)
    (runBatch : List String → (String → Option Nat) → (String → Option Nat))
    (nb_img : Nat) : List Specy → GState → GState × List Effect
  | [], g => (g, [])
  | sp :: rest, g =>
    let r := process_specy (fetchFor sp) runBatch sp nb_img g
    let r2 := runSpeciesBatch fetchFor runBatch nb_img rest r.2.1
    (r2.1, r.2.2 ++ r2.2)

/-! ## Photo downloader (`download_and_process_photo`, main.py lines 52-87) -/

/-- The observable contract of the image codec on a decoded payload. -/
structure DecodedImage where
  format : String
  width : Nat
  height : Nat
  mode : String
deriving DecidableEq, Repr

/-- An HTTP response for a photo URL.  `content_type` is `none` when the
header is absent (the source's unguarded header lookup then raises, caught
by the surrounding handler); `decoded` is `none` when the codec cannot
open the body (likewise caught). -/
structure HttpResponse where
  status_code : Nat
  content_type : Option String
  decoded : Option DecodedImage
deriving DecidableEq, Repr

/-- A file as written by the downloader: its path and the format and color
mode of the image actually saved. -/
structure SavedFile where
  filename : String
  format : String
  mode : String
deriving DecidableEq, Repr

/-- Embeds `download_and_process_photo`: it returns the written file, or `none` on
any of the early exits (non-200 status, non-image content type, undecodable
body, disallowed format, zero dimension) — every failure path is caught
and nothing is written.  The filename is driven by the decoded format
lowercased; a non-RGB JPEG is converted to RGB before saving. -/
def download_and_process_photo (resp : HttpResponse) (species_folder : String)
    (photo_index : Nat) : Option SavedFile :=
  if resp.status_code = 200 then
    match resp.content_type with
    | none => none
    | some ct =>
      if containsSub (("image").data) ct.data then
        match resp.decoded with
        | none => none
        | some img =>
          if img.format = ("JPEG") ∨ img.format = ("PNG") then
            if img.width = 0 ∨ img.height = 0 then none
            else
              let photo_filename :=
                species_folder ++ ("/photo_") ++ Nat.repr photo_index ++ (".")
                  ++ String.mk (img.format.data.map Char.toLower)
              let mode2 :=
                if img.mode ≠ ("RGB") ∧ img.format = ("JPEG") then ("RGB")
                else img.mode
              some { filename := photo_filename, format := img.format, mode := mode2 }
          else none
      else none
  else none

/-! ## Command-line surface (main.py lines 222-239)

Argument parsing itself is an external collaborator; what is embedded is
the contract the source requests from it — `--species` is declared with
integer type — together with the dispatch the source performs on the
parsed value. -/

def isPyDigit (c : Char) : Bool :=
  decide ('0' ≤ c) && decide (c ≤ '9')

/-- After a first digit, a CPython integer literal is a sequence of digits
with single underscores allowed only between digits. -/
def digitsRest : List Char → Bool
  | [] => true
  | c :: cs =>
    if c = '_' then
      match cs with
      | [] => false
      | c2 :: cs2 => isPyDigit c2 && digitsRest cs2
    else isPyDigit c && digitsRest cs

/-- Surrounding-whitespace stripping applied by CPython before parsing. -/
def trimWs (l : List Char) : List Char :=
  ((l.dropWhile isPySpace).reverse.dropWhile isPySpace).reverse

/-- Remove one optional leading sign character. -/
def stripSign (l : List Char) : List Char :=
  match l with
  | c :: rest => if c = '+' ∨ c = '-' then rest else l
  | [] => l

/-- Whether CPython's `int(...)` — the converter argparse applies to
`--species` — accepts the string: optional surrounding whitespace, an
optional sign, then a nonempty digit sequence. -/
def pyIntParses (s : String) : Bool :=
  match stripSign (trimWs s.data) with
  | [] => false
  | c :: cs => isPyDigit c && digitsRest cs

/-- How a run of the program ends, as far as the `--species` dispatch is
concerned. -/
inductive RunOutcome where
  | argError
  | attrError
  | bulkMode
deriving DecidableEq, Repr

/-- The dispatch on the parsed `--species` value: `None` and `0` are falsy
under `if args.species:` and fall through to bulk mode; any other integer
enters the single-species branch, where `.split` is immediately invoked on
an `int` and raises `AttributeError`. -/
def speciesArgDispatch (species : Option Int) : RunOutcome :=
  match species with
  | none => RunOutcome.bulkMode
  | some n => if n = 0 then RunOutcome.bulkMode else RunOutcome.attrError

/-! ## Concrete fixtures for witnesses and counterexamples -/

/-- A photo thread pool whose downloads leave the filesystem unchanged. -/
def noopBatch : List String → (String → Option Nat) → (String → Option Nat) :=
  fun _ fs => fs

def sampleObservation : Observation :=
  { observation_photos := [ { url := ("https://static/square/a.jpg") } ] }

def sampleResponse : ObsResponse :=
  { total_results := 50, results := [ sampleObservation, { observation_photos := [] } ] }

/-- A world in which the blue-tang folder exists with ten regular files. -/
def gTenFiles : GState :=
  { initState with fs := fun k => if k = ("fish_photos/blue_tang") then some 10 else none }

/-- A world in which the blue-tang folder exists with 42 regular files,
beyond the satisfied threshold. -/
def gSatisfied : GState :=
  { initState with fs := fun k => if k = ("fish_photos/blue_tang") then some 42 else none }

/-! ## Claim theorems -/

/-- C1: the claim says a fetch failure is caught at the per-species
boundary, logged, and still counted in `speciesProgress`.  The code has no
try/except in `process_specy`: at a concrete failing input the exception
escapes, no log line is emitted at that boundary, and `species_done` is
not incremented; only the sibling-isolation part holds, because the
thread pool stores the exception in a discarded future (second conjunct:
the healthy sibling of a failing species still completes). -/
theorem C1_fetch_failure_escapes :
    (process_specy FetchResult.err noopBatch { name := ("Ocean Triggerfish"), id := 5 } 100 initState).1
        = Except.error PyError.requestError
    ∧ (process_specy FetchResult.err noopBatch { name := ("Ocean Triggerfish"), id := 5 } 100 initState).2.1.species_done = 0
    ∧ (process_specy FetchResult.err noopBatch { name := ("Ocean Triggerfish"), id := 5 } 100 initState).2.2
        = [Effect.rateLimitAcquire, Effect.networkCall]
    ∧ (runSpeciesBatch (fun sp => if sp.id = 1 then FetchResult.err else FetchResult.ok sampleResponse)
        noopBatch 100 [ { name := ("Bad Fish"), id := 1 }, { name := ("Good Fish"), id := 2 } ] initState).1.species_done = 1 :=
  ⟨rfl, rfl, rfl, rfl⟩

set_option maxRecDepth 8192 in
/-- C2 counterexample: starting from the fresh limiter, 121 consecutive
acquisitions place 61 completions inside the 60-second window [30, 89],
refuting the at-most-60 rolling bound; and after 61 completed
acquisitions the counter reads 0, refuting that every completed
acquisition records its request. -/
theorem C2_counterexample :
    60 < completionsInWindow ((runAcquires 121 { request_count := 0, now := 0 }).2) 30 89
    ∧ (runAcquires 61 { request_count := 0, now := 0 }).1.request_count = 0 :=
  ⟨by decide, rfl⟩

/-- C5 counterexample: with a per-species target of 5 images, a folder
already holding 10 files, and a query reporting 50 available results, the
claim says downloading is skipped (the count exceeds the target); the
code nevertheless dispatches the downloads, because its gate compares
against the literal 100 rather than the target. -/
theorem C5_counterexample :
    Effect.dispatchDownloads (extract_photo_urls sampleResponse.results)
        ∈ (process_specy (FetchResult.ok sampleResponse) noopBatch
            { name := ("Blue Tang"), id := 7 } 5 gTenFiles).2.2
    ∧ 5 ≤ (10:Nat) := by
  exact ⟨by decide, by decide⟩

/-- C6 counterexample: one call to `respect_rate_limit` at a counter of 60
strictly decreases the counter (it resets it to zero), refuting that the
counter is never decreased or reset except by process restart. -/
theorem C6_counterexample :
    (respect_rate_limit { request_count := 60, now := 0 }).request_count
      < ({ request_count := 60, now := 0 } : RLState).request_count := by
  decide

/-- C6 amended: the request counter increases by one on every acquisition
made below the cap, but `respect_rate_limit` itself resets it to zero
whenever it has reached 60 — not only a process restart. -/
theorem C6_counter_resets (s : RLState) :
    (s.request_count < 60 → (respect_rate_limit s).request_count = s.request_count + 1)
    ∧ (60 ≤ s.request_count → (respect_rate_limit s).request_count = 0) := by
  refine ⟨fun h => ?_, fun h => ?_⟩
  · simp [respect_rate_limit, Nat.not_le.mpr h]
  · simp [respect_rate_limit, h]

/-- Witness for C6: the amended behavior at counters 5 and 60. -/
theorem C6_witness :
    (respect_rate_limit { request_count := 5, now := 0 }).request_count = 6
    ∧ (respect_rate_limit { request_count := 60, now := 0 }).request_count = 0 :=
  ⟨(C6_counter_resets { request_count := 5, now := 0 }).1 (by decide),
   (C6_counter_resets { request_count := 60, now := 0 }).2 (by decide)⟩

/-- C7: folder-key derivation maps "Blue Tang", "BlueTang" and
"blue_tang" to the same key "blue_tang" — spaces collapsed to
underscores, camel boundaries split, everything lowercased; as a Lean
function of the display name it is pure and deterministic. -/
theorem C7_folder_key :
    to_snake_case ("Blue Tang") = ("blue_tang")
    ∧ to_snake_case ("BlueTang") = ("blue_tang")
    ∧ to_snake_case ("blue_tang") = ("blue_tang") := by
  refine ⟨?_, ?_, ?_⟩ <;> decide

/-- Completion times never precede the clock at the start of the run. -/
theorem runAcquires_times_ge (n : Nat) (s : RLState) :
    ∀ t ∈ (runAcquires n s).2, s.now ≤ t := by
  induction n generalizing s with
  | zero => intro t ht; exact absurd ht (List.not_mem_nil t)
  | succ n ih =>
    intro t ht
    have hnow : s.now ≤ (respect_rate_limit s).now := by
      unfold respect_rate_limit
      split <;> simp
    rcases List.mem_cons.mp (by simpa [runAcquires] using ht) with h1 | h1
    · exact h1 ▸ hnow
    · exact le_trans hnow (ih (respect_rate_limit s) t h1)

/-- All completion times of a run are congruent to the starting clock
modulo 60: the clock only ever advances in 60-second sleeps. -/
theorem runAcquires_times_mod (n : Nat) (s : RLState) :
    ∀ t ∈ (runAcquires n s).2, t % 60 = s.now % 60 := by
  induction n generalizing s with
  | zero => intro t ht; exact absurd ht (List.not_mem_nil t)
  | succ n ih =>
    intro t ht
    have hmod : (respect_rate_limit s).now % 60 = s.now % 60 := by
      unfold respect_rate_limit
      split <;> simp [Nat.add_mod_right]
    rcases List.mem_cons.mp (by simpa [runAcquires] using ht) with h1 | h1
    · exact h1 ▸ hmod
    · exact (ih (respect_rate_limit s) t h1).trans hmod

theorem countAt_cons (t0 : Nat) (ts : List Nat) (T : Nat) :
    countAt (t0 :: ts) T = (if t0 = T then 1 else 0) + countAt ts T := by
  by_cases h : t0 = T <;> simp [countAt, List.filter_cons, h, Nat.add_comm]

theorem countAt_eq_zero_of_lt (ts : List Nat) (T : Nat) (h : ∀ t ∈ ts, T < t) :
    countAt ts T = 0 := by
  unfold countAt
  rw [List.length_eq_zero, List.filter_eq_nil_iff]
  intro t ht
  simp only [decide_eq_true_eq]
  intro he
  subst he
  exact absurd (h t ht) (by omega)

/-- At most 61 acquisitions complete at any single instant: the call that
sleeps through a reset plus the 60 recorded calls that follow it; and at
the starting instant, only the remaining budget below the cap completes. -/
theorem runAcquires_countAt_bound (n : Nat) :
    ∀ (s : RLState), s.request_count ≤ 60 → ∀ T,
      countAt ((runAcquires n s).2) T ≤ 61
      ∧ (T = s.now → countAt ((runAcquires n s).2) T ≤ 60 - s.request_count) := by
  induction n with
  | zero =>
    intro s hc T
    exact ⟨by simp [runAcquires, countAt], fun _ => by simp [runAcquires, countAt]⟩
  | succ n ih =>
    intro s hc T
    have hunf : (runAcquires (n + 1) s).2
        = (respect_rate_limit s).now :: (runAcquires n (respect_rate_limit s)).2 := by
      simp [runAcquires]
    rw [hunf, countAt_cons]
    by_cases hcap : 60 ≤ s.request_count
    · have hs1 : respect_rate_limit s = { request_count := 0, now := s.now + 60 } := by
        simp [respect_rate_limit, hcap]
      rw [hs1]
      have hc60 : s.request_count = 60 := Nat.le_antisymm hc hcap
      have ihs := ih { request_count := 0, now := s.now + 60 } (by simp) T
      constructor
      · by_cases hT : s.now + 60 = T
        · have h2 := ihs.2 hT.symm
          dsimp only at h2
          rw [if_pos hT]
          omega
        · rw [if_neg hT]
          have h1 := ihs.1
          omega
      · intro hTnow
        have hne : ¬(s.now + 60 = T) := by omega
        rw [if_neg hne]
        have hz : countAt ((runAcquires n { request_count := 0, now := s.now + 60 }).2) T = 0 := by
          apply countAt_eq_zero_of_lt
          intro t ht
          have hge := runAcquires_times_ge n { request_count := 0, now := s.now + 60 } t ht
          simp only at hge
          omega
        rw [hz]
        omega
    · have hs1 : respect_rate_limit s = { s with request_count := s.request_count + 1 } := by
        simp [respect_rate_limit, hcap]
      rw [hs1]
      have hlt : s.request_count < 60 := Nat.lt_of_not_le hcap
      have ihs := ih { s with request_count := s.request_count + 1 } (by simp; omega) T
      constructor
      · by_cases hT : s.now = T
        · have h2 := ihs.2 hT.symm
          dsimp only at h2
          rw [if_pos hT]
          omega
        · rw [if_neg hT]
          have h1 := ihs.1
          omega
      · intro hTnow
        have h2 := ihs.2 hTnow
        dsimp only at h2
        rw [if_pos hTnow.symm]
        omega

theorem length_filter_le_of_imp (l : List Nat) (p q : Nat → Bool)
    (h : ∀ x ∈ l, p x = true → q x = true) :
    (l.filter p).length ≤ (l.filter q).length := by
  induction l with
  | nil => simp
  | cons x l ih =>
    have hx := h x (List.mem_cons_self x l)
    have ih2 := ih (fun y hy => h y (List.mem_cons_of_mem x hy))
    by_cases hp : p x = true
    · rw [List.filter_cons, if_pos hp, List.filter_cons, if_pos (hx hp)]
      simpa using ih2
    · rw [List.filter_cons, if_neg hp, List.filter_cons]
      by_cases hq : q x = true
      · rw [if_pos hq]
        exact le_trans ih2 (by simp)
      · rw [if_neg hq]
        exact ih2

/-- C2 amended: across any rolling 60-second window at most 61
acquisitions complete — not 60.  The limiter is a fixed window: the
caller that finds the counter at 60 sleeps a full minute, resets the
counter, and completes without recording its request, so one window can
hold that reset call plus the following 60 recorded calls. -/
theorem C2_window_at_most_61 (n : Nat) (s : RLState) (a b : Nat)
    (hc : s.request_count ≤ 60) (hw : b < a + 60) :
    completionsInWindow ((runAcquires n s).2) a b ≤ 61 := by
  by_cases hex : ∃ t0 ∈ (runAcquires n s).2, (decide (a ≤ t0) && decide (t0 ≤ b)) = true
  · rcases hex with ⟨t0, ht0mem, ht0win⟩
    simp only [Bool.and_eq_true, decide_eq_true_eq] at ht0win
    have himp : ∀ x ∈ (runAcquires n s).2,
        (decide (a ≤ x) && decide (x ≤ b)) = true → (decide (x = t0)) = true := by
      intro x hx hpx
      simp only [Bool.and_eq_true, decide_eq_true_eq] at hpx
      have hx60 := runAcquires_times_mod n s x hx
      have ht060 := runAcquires_times_mod n s t0 ht0mem
      simp only [decide_eq_true_eq]
      omega
    have hmono := length_filter_le_of_imp ((runAcquires n s).2)
      (fun t => decide (a ≤ t) && decide (t ≤ b)) (fun t => decide (t = t0)) himp
    exact le_trans hmono (runAcquires_countAt_bound n s hc t0).1
  · have hzero : completionsInWindow ((runAcquires n s).2) a b = 0 := by
      unfold completionsInWindow
      rw [List.length_eq_zero, List.filter_eq_nil_iff]
      intro t ht hpt
      exact hex ⟨t, ht, hpt⟩
    omega

set_option maxRecDepth 8192 in
/-- Witness for C2: the 121-acquisition run against the window [30, 89]. -/
theorem C2_witness :
    completionsInWindow ((runAcquires 121 { request_count := 0, now := 0 }).2) 30 89 ≤ 61 :=
  C2_window_at_most_61 121 { request_count := 0, now := 0 } 30 89 (by decide) (by decide)

/-- C3: a species whose folder already exists with at least 30 regular
files is skipped outright: `process_specy` returns successfully having
performed no effect at all — no network call, no rate-limiter
acquisition, no cache interaction — and the resulting state differs from
the input state only in the incremented `species_done` counter (in
particular the folder's file count, the cache, and the request counter
are unchanged). -/
theorem C3_resume_skip (fetch : FetchResult)
    (runBatch : List String → (String → Option Nat) → (String → Option Nat))
    (specy : Specy) (nb_img : Nat) (g : GState) (n : Nat)
    (hfs : g.fs (root_folder ++ ("/") ++ to_snake_case specy.name) = some n)
    (h30 : 30 ≤ n) :
    process_specy fetch runBatch specy nb_img g
      = (Except.ok (), { g with species_done := g.species_done + 1 }, []) := by
  simp [process_specy, hfs, h30]

/-- Witness for C3: skipping a blue-tang folder holding 42 files. -/
theorem C3_witness :
    process_specy (FetchResult.ok sampleResponse) noopBatch
        { name := ("Blue Tang"), id := 7 } 100 gSatisfied
      = (Except.ok (), { gSatisfied with species_done := gSatisfied.species_done + 1 }, []) :=
  C3_resume_skip (FetchResult.ok sampleResponse) noopBatch
    { name := ("Blue Tang"), id := 7 } 100 gSatisfied 42 (by decide) (by decide)

/-- C4: with the cache empty at a key, a first fetch issues exactly one
network call and populates the cache, and a second fetch for the same key
is served from the cache: the two returned results are identical, the
total number of network calls across the two fetches is one, and the
cache-hit path performs no rate-limiter acquisition at all. -/
theorem C4_cache_single_fetch (g : GState) (key : String) (res : ObsResponse)
    (hmiss : g.cache key = none) :
    (cached_get_observations (FetchResult.ok res) key g).1 = Except.ok res
    ∧ (cached_get_observations (FetchResult.ok res) key
        (cached_get_observations (FetchResult.ok res) key g).2.1).1 = Except.ok res
    ∧ ((cached_get_observations (FetchResult.ok res) key g).2.2
        ++ (cached_get_observations (FetchResult.ok res) key
              (cached_get_observations (FetchResult.ok res) key g).2.1).2.2).count
          Effect.networkCall = 1
    ∧ Effect.rateLimitAcquire
        ∉ (cached_get_observations (FetchResult.ok res) key
            (cached_get_observations (FetchResult.ok res) key g).2.1).2.2 := by
  have h1 : cached_get_observations (FetchResult.ok res) key g
      = (Except.ok res,
         { g with rl := respect_rate_limit g.rl,
                  cache := fun k => if k = key then some res else g.cache k },
         [Effect.rateLimitAcquire, Effect.networkCall]) := by
    simp [cached_get_observations, hmiss, get_observations]
  rw [h1]
  simp [cached_get_observations, List.count_cons, List.count_append]

/-- Witness for C4: the two-fetch scenario from the fresh state. -/
theorem C4_witness :
    (cached_get_observations (FetchResult.ok sampleResponse) ("fish_photos/blue_tang") initState).1
        = Except.ok sampleResponse
    ∧ (cached_get_observations (FetchResult.ok sampleResponse) ("fish_photos/blue_tang")
        (cached_get_observations (FetchResult.ok sampleResponse) ("fish_photos/blue_tang") initState).2.1).1
        = Except.ok sampleResponse
    ∧ ((cached_get_observations (FetchResult.ok sampleResponse) ("fish_photos/blue_tang") initState).2.2
        ++ (cached_get_observations (FetchResult.ok sampleResponse) ("fish_photos/blue_tang")
              (cached_get_observations (FetchResult.ok sampleResponse) ("fish_photos/blue_tang") initState).2.1).2.2).count
          Effect.networkCall = 1
    ∧ Effect.rateLimitAcquire
        ∉ (cached_get_observations (FetchResult.ok sampleResponse) ("fish_photos/blue_tang")
            (cached_get_observations (FetchResult.ok sampleResponse) ("fish_photos/blue_tang") initState).2.1).2.2 :=
  C4_cache_single_fetch initState ("fish_photos/blue_tang") sampleResponse (by decide)

/-- The cached fetch never writes the module-level `total_results`. -/
theorem cached_get_observations_total_eq (f : FetchResult) (k : String) (g : GState) :
    (cached_get_observations f k g).2.1.total_results = g.total_results := by
  cases hc : g.cache k <;> cases f <;>
    simp [cached_get_observations, hc, get_observations]

/-- The body of `process_specy` never writes the module-level
`total_results`: its assignment of that name binds a function-local
variable under Python scoping. -/
theorem process_specy_body_total_eq (f : FetchResult)
    (rb : List String → (String → Option Nat) → (String → Option Nat))
    (g : GState) (cn sf : String) :
    (process_specy_body f rb g cn sf).2.1.total_results = g.total_results := by
  have h2 := cached_get_observations_total_eq f sf
    { g with fs := (create_species_folder g.fs cn).1 }
  simp only [process_specy_body]
  split
  · rename_i e g2 eff heq
    rw [heq] at h2
    simpa using h2
  · rename_i obs g2 eff heq
    rw [heq] at h2
    simp only at h2
    split <;> (split <;> simpa using h2)

/-- Function `process_specy` never writes the module-level `total_results`. -/
theorem process_specy_total_eq (f : FetchResult)
    (rb : List String → (String → Option Nat) → (String → Option Nat))
    (sp : Specy) (nb : Nat) (g : GState) :
    (process_specy f rb sp nb g).2.1.total_results = g.total_results := by
  simp only [process_specy]
  split
  · rename_i n heq
    split
    · rfl
    · exact process_specy_body_total_eq f rb g _ _
  · exact process_specy_body_total_eq f rb g _ _

/-- The species batch runner never writes the module-level
`total_results` either (the assignment in the bulk enumerator is likewise
function-local). -/
theorem runSpeciesBatch_total_eq (fetchFor : Specy → FetchResult)
    (rb : List String → (String → Option Nat) → (String → Option Nat))
    (nb : Nat) (species : List Specy) (g : GState) :
    (runSpeciesBatch fetchFor rb nb species g).1.total_results = g.total_results := by
  induction species generalizing g with
  | nil => rfl
  | cons sp rest ih =>
    simp only [runSpeciesBatch]
    rw [ih, process_specy_total_eq]

/-- C9: in a fresh process the global `total_results` is zero, no species
processing ever updates it (the assignments of that name inside
`process_specy` and the bulk enumerator bind locals that shadow the
global), and therefore every progress report issued after any bulk run
divides `species_done` by zero and raises `ZeroDivisionError`. -/
theorem C9_report_always_divides_by_zero :
    initState.total_results = 0
    ∧ (∀ (fetch : FetchResult)
        (rb : List String → (String → Option Nat) → (String → Option Nat))
        (sp : Specy) (nb : Nat) (g : GState),
        (process_specy fetch rb sp nb g).2.1.total_results = g.total_results)
    ∧ (∀ (fetchFor : Specy → FetchResult)
        (rb : List String → (String → Option Nat) → (String → Option Nat))
        (nb : Nat) (species : List Specy) (g : GState),
        g.total_results = 0 →
        report_stats (runSpeciesBatch fetchFor rb nb species g).1
          = Except.error PyError.zeroDivisionError) := by
  refine ⟨rfl, process_specy_total_eq, ?_⟩
  intro fetchFor rb nb species g hg
  have h := runSpeciesBatch_total_eq fetchFor rb nb species g
  rw [hg] at h
  simp [report_stats, h]

/-- Witness for C9: a one-species bulk run from the fresh state ends with
a raising progress report. -/
theorem C9_witness :
    report_stats (runSpeciesBatch (fun _ => FetchResult.ok sampleResponse) noopBatch 100
        [ { name := ("Blue Tang"), id := 7 } ] initState).1
      = Except.error PyError.zeroDivisionError :=
  C9_report_always_divides_by_zero.2.2 (fun _ => FetchResult.ok sampleResponse) noopBatch 100
    [ { name := ("Blue Tang"), id := 7 } ] initState (by decide)

/-- C5 amended: after URL extraction the processor recomputes the on-disk
file count and skips photo downloading exactly when that count is at least
the fixed literal 100 — not the per-species target image count — or at
least the query's reported total-available-results; otherwise it
dispatches downloads.  Stated for an unsatisfied folder (under 30 files
or absent) and a cold cache, so the gate is actually reached. -/
theorem C5_gate_uses_constant_100 (res : ObsResponse)
    (rb : List String → (String → Option Nat) → (String → Option Nat))
    (specy : Specy) (nb_img : Nat) (g : GState)
    (hcache : g.cache (root_folder ++ ("/") ++ to_snake_case specy.name) = none)
    (hns : ∀ n, g.fs (root_folder ++ ("/") ++ to_snake_case specy.name) = some n → n < 30) :
    (Effect.dispatchDownloads (extract_photo_urls res.results)
        ∈ (process_specy (FetchResult.ok res) rb specy nb_img g).2.2)
    ↔ ((g.fs (root_folder ++ ("/") ++ to_snake_case specy.name)).getD 0 < 100
        ∧ (g.fs (root_folder ++ ("/") ++ to_snake_case specy.name)).getD 0 < res.total_results) := by
  cases hfs : g.fs (root_folder ++ ("/") ++ to_snake_case specy.name) with
  | none =>
    simp [process_specy, hfs, process_specy_body, create_species_folder,
      cached_get_observations, hcache, get_observations]
    by_cases hgate : 0 < res.total_results
    · simp only [hgate, if_true]
      split <;> simp [hgate]
    · simp only [hgate, if_false]
      split <;> simp [hgate]
  | some n =>
    have hlt := hns n hfs
    simp [process_specy, hfs, Nat.not_le.mpr hlt,
      process_specy_body, create_species_folder,
      cached_get_observations, hcache, get_observations]
    by_cases hgate : n < 100 ∧ n < res.total_results
    · simp only [hgate, if_true]
      split <;> simp [hgate]
    · simp only [hgate, if_false]
      split <;> simp [hgate]

/-- Witness for C5: at a ten-file folder with a per-species target of 5
and 50 available results, the gate evaluates through the literal 100 and
downloading is dispatched. -/
theorem C5_witness :
    (Effect.dispatchDownloads (extract_photo_urls sampleResponse.results)
        ∈ (process_specy (FetchResult.ok sampleResponse) noopBatch
            { name := ("Blue Tang"), id := 7 } 5 gTenFiles).2.2)
    ↔ ((gTenFiles.fs (root_folder ++ ("/") ++ to_snake_case ("Blue Tang"))).getD 0 < 100
        ∧ (gTenFiles.fs (root_folder ++ ("/") ++ to_snake_case ("Blue Tang"))).getD 0
            < sampleResponse.total_results) :=
  C5_gate_uses_constant_100 sampleResponse noopBatch
    { name := ("Blue Tang"), id := 7 } 5 gTenFiles
    (by decide)
    (by
      intro n h
      rw [show gTenFiles.fs (root_folder ++ ("/") ++ to_snake_case ("Blue Tang")) = some 10
        from by decide] at h
      injection h with h2
      omega)

/-- C10 counterexample: the integer 0 is accepted by the declared
integer-typed `--species` argument, yet the run does not fail at the
string-split — `0` is falsy, so the program silently falls through to
bulk mode, refuting that every accepted integer value fails at the split. -/
theorem C10_counterexample :
    speciesArgDispatch (some 0) = RunOutcome.bulkMode
    ∧ RunOutcome.bulkMode ≠ RunOutcome.attrError := by
  decide

theorem digitsRest_underscore_cons (c2 : Char) (cs2 : List Char) :
    digitsRest ('_' :: c2 :: cs2) = (isPyDigit c2 && digitsRest cs2) := rfl

theorem digitsRest_cons_ne (c0 : Char) (cs : List Char) (h : c0 ≠ '_') :
    digitsRest (c0 :: cs) = (isPyDigit c0 && digitsRest cs) := by
  rw [digitsRest.eq_def]
  simp only [if_neg h]

/-- Every character of a valid post-first-digit tail is a digit or an
underscore. -/
theorem digitsRest_mem (l : List Char) (h : digitsRest l = true) :
    ∀ c ∈ l, isPyDigit c = true ∨ c = '_' := by
  induction l with
  | nil => intro c hc; exact absurd hc (List.not_mem_nil c)
  | cons c0 cs ih =>
    intro c hc
    by_cases h0 : c0 = '_'
    · subst h0
      match cs, hc with
      | [], hc =>
        exact absurd h (by decide)
      | c2 :: cs2, hc =>
        rw [digitsRest_underscore_cons, Bool.and_eq_true] at h
        have hne : c2 ≠ '_' := by
          intro he
          rw [he] at h
          exact absurd h.1 (by decide)
        have htail : digitsRest (c2 :: cs2) = true := by
          rw [digitsRest_cons_ne c2 cs2 hne]
          simp [h.1, h.2]
        rcases List.mem_cons.mp hc with h1 | h1
        · exact Or.inr h1
        · exact ih htail c h1
    · rw [digitsRest_cons_ne c0 cs h0, Bool.and_eq_true] at h
      rcases List.mem_cons.mp hc with h1 | h1
      · subst h1; exact Or.inl h.1
      · exact ih h.2 c h1

/-- A character of a list survives into its trimmed form unless it is
whitespace. -/
theorem mem_trimWs_or_space {c : Char} {l : List Char} (hc : c ∈ l) :
    c ∈ trimWs l ∨ isPySpace c = true := by
  by_cases hs : isPySpace c = true
  · exact Or.inr hs
  · left
    have step : ∀ m : List Char, c ∈ m → c ∈ m.dropWhile isPySpace := by
      intro m hm
      have hsplit := List.takeWhile_append_dropWhile isPySpace m
      rw [← hsplit] at hm
      rcases List.mem_append.mp hm with h1 | h1
      · exact absurd (List.mem_takeWhile_imp h1) hs
      · exact h1
    have h1 : c ∈ l.dropWhile isPySpace := step l hc
    have h2 : c ∈ (l.dropWhile isPySpace).reverse := List.mem_reverse.mpr h1
    have h3 := step _ h2
    exact List.mem_reverse.mpr h3

/-- Stripping the sign either leaves the list unchanged or removes a
leading sign character. -/
theorem stripSign_cases (l : List Char) :
    stripSign l = l
    ∨ ∃ c0, (c0 = '+' ∨ c0 = '-') ∧ l = c0 :: stripSign l := by
  match l with
  | [] => exact Or.inl rfl
  | c :: rest =>
    by_cases h : c = '+' ∨ c = '-'
    · right
      exact ⟨c, h, by rw [stripSign, if_pos h]⟩
    · left
      rw [stripSign, if_neg h]

/-- Any string accepted by the integer converter consists only of
whitespace, signs, digits and underscores. -/
theorem pyIntParses_chars (s : String) (h : pyIntParses s = true) :
    ∀ c ∈ s.data, isPySpace c = true ∨ c = '+' ∨ c = '-'
      ∨ isPyDigit c = true ∨ c = '_' := by
  intro c hc
  rcases mem_trimWs_or_space hc with ht | ht
  · rw [pyIntParses] at h
    rcases hcore : stripSign (trimWs s.data) with _ | ⟨c1, cs⟩
    · rw [hcore] at h
      exact absurd h (by simp)
    · rw [hcore] at h
      simp only [Bool.and_eq_true] at h
      have hmemCore : c ∈ stripSign (trimWs s.data) ∨ c = '+' ∨ c = '-' := by
        rcases stripSign_cases (trimWs s.data) with he | ⟨c0, hsgn, he⟩
        · rw [he]; exact Or.inl ht
        · rw [he] at ht
          rcases List.mem_cons.mp ht with h1 | h1
          · subst h1
            exact Or.inr hsgn
          · exact Or.inl h1
      rcases hmemCore with hm | hm
      · rw [hcore] at hm
        rcases List.mem_cons.mp hm with h1 | h1
        · subst h1
          exact Or.inr (Or.inr (Or.inr (Or.inl h.1)))
        · rcases digitsRest_mem cs h.2 c h1 with hd | hd
          · exact Or.inr (Or.inr (Or.inr (Or.inl hd)))
          · exact Or.inr (Or.inr (Or.inr (Or.inr hd)))
      · rcases hm with hm | hm
        · exact Or.inr (Or.inl hm)
        · exact Or.inr (Or.inr (Or.inl hm))
  · exact Or.inl ht

/-- C10 amended: single-species mode is unusable, but not in the way the
claim states for zero.  Any string containing a comma — in particular a
comma-separated list of species names — is rejected by the integer-typed
argument parser; any accepted nonzero integer then raises
`AttributeError` when the string split is invoked on it; the accepted
integer 0, however, is falsy and silently selects bulk mode instead of
failing. -/
theorem C10_single_species_unusable :
    (∀ s : String, (',') ∈ s.data → pyIntParses s = false)
    ∧ (∀ n : Int, n ≠ 0 → speciesArgDispatch (some n) = RunOutcome.attrError)
    ∧ speciesArgDispatch (some 0) = RunOutcome.bulkMode := by
  refine ⟨?_, ?_, rfl⟩
  · intro s hc
    cases hx : pyIntParses s
    · rfl
    · have := pyIntParses_chars s hx (',') hc
      revert this
      decide
  · intro n hn
    simp [speciesArgDispatch, hn]

/-- Witness for C10: a two-name species list is rejected by parsing, and
the accepted integer 7 raises at the split. -/
theorem C10_witness :
    pyIntParses ("Thunnus,Katsuwonus") = false
    ∧ speciesArgDispatch (some 7) = RunOutcome.attrError :=
  ⟨C10_single_species_unusable.1 ("Thunnus,Katsuwonus") (by decide),
   C10_single_species_unusable.2.1 7 (by decide)⟩

/-- C8: a payload declared `text/html` is never written to disk; a
payload whose decoded image has zero width is never written to disk; and
a JPEG decoded in a non-RGB color mode is saved converted to RGB, under
the filename `photo_<index>.jpeg` driven by the lowercased decoded
format. -/
theorem C8_image_validation (resp : HttpResponse) (folder : String) (idx : Nat) :
    (resp.content_type = some ("text/html") →
      download_and_process_photo resp folder idx = none)
    ∧ (∀ img, resp.decoded = some img → img.width = 0 →
        download_and_process_photo resp folder idx = none)
    ∧ (∀ img f, resp.decoded = some img → img.format = ("JPEG") →
        img.mode ≠ ("RGB") →
        download_and_process_photo resp folder idx = some f →
        f.mode = ("RGB")
        ∧ f.filename
            = folder ++ ("/photo_") ++ Nat.repr idx ++ (".") ++ ("jpeg")) := by
  have hhtml : containsSub (("image").data) (("text/html").data) = false := by decide
  refine ⟨?_, ?_, ?_⟩
  · intro hct
    by_cases hs : resp.status_code = 200
    · simp [download_and_process_photo, hs, hct, hhtml]
    · simp [download_and_process_photo, hs]
  · intro img hdec hw
    by_cases hs : resp.status_code = 200
    · cases hct : resp.content_type with
      | none => simp [download_and_process_photo, hs, hct]
      | some ct =>
        by_cases him : containsSub (("image").data) ct.data
        · by_cases hfmt : img.format = ("JPEG") ∨ img.format = ("PNG")
          · simp [download_and_process_photo, hs, hct, him, hdec, hfmt, hw]
          · simp [download_and_process_photo, hs, hct, him, hdec, hfmt]
        · simp [download_and_process_photo, hs, hct, him]
    · simp [download_and_process_photo, hs]
  · intro img f hdec hfmt hmode hsave
    by_cases hs : resp.status_code = 200
    · cases hct : resp.content_type with
      | none => simp [download_and_process_photo, hs, hct] at hsave
      | some ct =>
        by_cases him : containsSub (("image").data) ct.data
        · simp [download_and_process_photo, hs, hct, him, hdec, hfmt, hmode] at hsave
          rw [← hsave.2]
          exact ⟨rfl, rfl⟩
        · simp [download_and_process_photo, hs, hct, him] at hsave
    · simp [download_and_process_photo, hs] at hsave

/-- Witness for C8: the three validation behaviors at concrete
responses — an HTML payload, a zero-width PNG, and a CMYK JPEG. -/
theorem C8_witness :
    download_and_process_photo
        { status_code := 200, content_type := some ("text/html"),
          decoded := some { format := ("JPEG"), width := 5, height := 5, mode := ("RGB") } }
        ("fish_photos/blue_tang") 0 = none
    ∧ download_and_process_photo
        { status_code := 200, content_type := some ("image/png"),
          decoded := some { format := ("PNG"), width := 0, height := 5, mode := ("RGB") } }
        ("fish_photos/blue_tang") 1 = none
    ∧ (download_and_process_photo
        { status_code := 200, content_type := some ("image/jpeg"),
          decoded := some { format := ("JPEG"), width := 5, height := 5, mode := ("CMYK") } }
        ("fish_photos/blue_tang") 2
        = some { filename := ("fish_photos/blue_tang/photo_2.jpeg"),
                 format := ("JPEG"), mode := ("RGB") } →
      (({ filename := ("fish_photos/blue_tang/photo_2.jpeg"),
          format := ("JPEG"), mode := ("RGB") } : SavedFile).mode = ("RGB")
       ∧ ({ filename := ("fish_photos/blue_tang/photo_2.jpeg"),
            format := ("JPEG"), mode := ("RGB") } : SavedFile).filename
           = ("fish_photos/blue_tang") ++ ("/photo_") ++ Nat.repr 2 ++ (".") ++ ("jpeg"))) :=
  ⟨(C8_image_validation
      { status_code := 200, content_type := some ("text/html"),
        decoded := some { format := ("JPEG"), width := 5, height := 5, mode := ("RGB") } }
      ("fish_photos/blue_tang") 0).1 (by decide),
   (C8_image_validation
      { status_code := 200, content_type := some ("image/png"),
        decoded := some { format := ("PNG"), width := 0, height := 5, mode := ("RGB") } }
      ("fish_photos/blue_tang") 1).2.1
      { format := ("PNG"), width := 0, height := 5, mode := ("RGB") } (by decide) (by decide),
   fun hsave =>
     (C8_image_validation
        { status_code := 200, content_type := some ("image/jpeg"),
          decoded := some { format := ("JPEG"), width := 5, height := 5, mode := ("CMYK") } }
        ("fish_photos/blue_tang") 2).2.2
        { format := ("JPEG"), width := 5, height := 5, mode := ("CMYK") }
        { filename := ("fish_photos/blue_tang/photo_2.jpeg"),
          format := ("JPEG"), mode := ("RGB") }
        (by decide) (by decide) (by decide) hsave⟩

end INatDataset

